import Mathlib

/-!
Shallow embedding of the core of the ethiopia-fi-forecasting-system repository:
the forecaster (`src/src/forecasting/forecast_models.py`), the event impact
modeler (`src/src/impact_modeling/event_modeler.py`), the association matrix
builder (`src/src/impact_modeling/association_matrix.py`) and the dashboard
forecast processor (`src/dashboard/utils/forecast_processor.py`).

Floats are modelled as exact rationals.  The single non-algebraic float
operation in the pipeline, the square root inside `np.std`, is abstracted as a
parameter `sqrtA : ℚ → ℚ`; every theorem below quantifies over it, so each
result holds in particular for the real floating-point square root.  All other
arithmetic of the source is embedded exactly.
-/

set_option maxRecDepth 1500

/-- Calendar date (year, month, day), the parsed form of an ISO date string. -/
structure CivDate where
  y : Int
  m : Int
  d : Int
deriving DecidableEq

/-- One row of the enriched dataset: an observation or an event record. -/
structure DataRec where
  record_type : String
  indicator : String
  date : CivDate
  value_numeric : ℚ
deriving DecidableEq

/-- Association matrix in column-major form: each indicator column is an
association list from event name to signed impact. -/
abbrev AssocCols := List (String × List (String × ℚ))

/-- Days since 1970-01-01 of a civil date (the standard civil-days algorithm,
matching the day arithmetic of pandas timestamps). -/
def daysFromCivil (dt : CivDate) : Int :=
  let yy := if dt.m ≤ 2 then dt.y - 1 else dt.y
  let era := (if 0 ≤ yy then yy else yy - 399) / 400
  let yoe := yy - era * 400
  let mp := if 2 < dt.m then dt.m - 3 else dt.m + 9
  let doy := (153 * mp + 2) / 5 + dt.d - 1
  let doe := yoe * 365 + yoe / 4 - yoe / 100 + doy
  era * 146097 + doe - 719468

/-- Mean of a list of rationals (pandas `.mean()` on a float column). -/
def listMean (xs : List ℚ) : ℚ := xs.sum / (xs.length : ℚ)

/-- Population variance, the square of `np.std` (default `ddof=0`). -/
def pvariance (xs : List ℚ) : ℚ :=
  ((xs.map (fun x => (x - listMean xs) ^ 2)).sum) / (xs.length : ℚ)

/-- The two-sided clip of `create_scenarios`: `.clip(upper=100)` followed by
`.clip(lower=0)`. -/
def clip100 (x : ℚ) : ℚ := max 0 (min x 100)

/-- Insert a year into a sorted list of years. -/
def insertYear (y : Int) : List Int → List Int
  | [] => [y]
  | z :: zs => if y ≤ z then y :: z :: zs else z :: insertYear y zs

/-- Insertion sort on years (pandas `groupby` sorts its keys ascending). -/
def sortYears : List Int → List Int
  | [] => []
  | z :: zs => insertYear z (sortYears zs)

/-- The distinct years occurring among a list of records. -/
def uniqueYears (rs : List DataRec) : List Int :=
  (rs.map (fun r => r.date.y)).dedup

/-- Yearly aggregation: one `(year, mean value)` row per distinct year, years
ascending — the `groupby('year')['value_numeric'].mean()` step of
`prepare_historical_data`. -/
def yearlyData (rs : List DataRec) : List (Int × ℚ) :=
  (sortYears (uniqueYears rs)).map (fun y =>
    (y, listMean ((rs.filter (fun r => r.date.y == y)).map (fun r => r.value_numeric))))

/-- Observation rows of the enriched dataset for one indicator. -/
def observationsFor (data : List DataRec) (ind : String) : List DataRec :=
  data.filter (fun r => r.record_type == "observation" && r.indicator == ind)

/-- Event rows of the enriched dataset. -/
def eventsOf (data : List DataRec) : List DataRec :=
  data.filter (fun r => r.record_type == "event")

def msgNoData : String := "No historical data found for indicator: "

def msgInsufficient : String := "Insufficient historical data for "

def msgKeyErrorBand : String := "KeyError: event_lower"

def msgKeyErrorLoc : String := "KeyError: .loc lookup failed"

def msgIndexError : String := "IndexError: single positional indexer is out-of-bounds"

/-- `FinancialInclusionForecaster.prepare_historical_data`: filter the
observations of one indicator, raise if none exist, aggregate by year. -/
def prepareHistoricalData (data : List DataRec) (ind : String) :
    Except String (List (Int × ℚ)) :=
  if (observationsFor data ind).isEmpty then .error (msgNoData ++ ind)
  else .ok (yearlyData (observationsFor data ind))

/-- Ordinary least-squares line fit (sklearn `LinearRegression`): returns
`(slope, intercept)`. -/
def linfit (pts : List (Int × ℚ)) : ℚ × ℚ :=
  let n : ℚ := (pts.length : ℚ)
  let xbar := (pts.map (fun p => (p.1 : ℚ))).sum / n
  let ybar := (pts.map (fun p => p.2)).sum / n
  let sxx := (pts.map (fun p => ((p.1 : ℚ) - xbar) ^ 2)).sum
  let sxy := (pts.map (fun p => ((p.1 : ℚ) - xbar) * (p.2 - ybar))).sum
  let slope := sxy / sxx
  (slope, ybar - slope * xbar)

/-- One row of the baseline forecast dataframe. -/
structure BaselineRow where
  year : Int
  baseline : ℚ
  baseline_lower : ℚ
  baseline_upper : ℚ
deriving DecidableEq

/-- The body of `baseline_forecast` after the historical data is prepared:
raise below two yearly points, else fit the line and predict with a
`1.96 × std(residuals)` band. -/
def baselineFromHistorical (sqrtA : ℚ → ℚ) (ind : String) (forecastYears : List Int)
    (historical : List (Int × ℚ)) : Except String (List BaselineRow) :=
  if historical.length < 2 then .error (msgInsufficient ++ ind)
  else
    let fit := linfit historical
    let residuals := historical.map (fun p => p.2 - (fit.2 + fit.1 * (p.1 : ℚ)))
    let stdError := sqrtA (pvariance residuals)
    .ok (forecastYears.map (fun (yv : Int) =>
      let b := fit.2 + fit.1 * (yv : ℚ)
      ⟨yv, b, b - (49/25) * stdError, b + (49/25) * stdError⟩))

/-- `FinancialInclusionForecaster.baseline_forecast`: linear-regression trend
with a `1.96 × std(residuals)` band.  `sqrtA` abstracts the float square root
inside `np.std`. -/
def baselineForecast (sqrtA : ℚ → ℚ) (data : List DataRec) (ind : String)
    (forecastYears : List Int) : Except String (List BaselineRow) :=
  match prepareHistoricalData data ind with
  | .error e => .error e
  | .ok historical => baselineFromHistorical sqrtA ind forecastYears historical

/-- Column lookup `self.association_matrix[indicator]` (none when the
indicator is not a column). -/
def findColumn (m : AssocCols) (ind : String) : Option (List (String × ℚ)) :=
  (m.find? (fun c => c.1 == ind)).map (fun c => c.2)

/-- Day number of `pd.Timestamp(f'{year}-01-01')`. -/
def janFirstDays (year : Int) : Int := daysFromCivil ⟨year, 1, 1⟩

/-- Per-event contribution inside `event_augmented_forecast`:
`years_since = days/365.25`; if strictly positive, `impact * min(1,
years_since/2)` (the 2-year linear ramp), else nothing is added. -/
def eventContribution (impact : ℚ) (daysSince : Int) : ℚ :=
  let yearsSince : ℚ := (daysSince : ℚ) / (1461/4)
  if 0 < yearsSince then impact * min 1 (yearsSince / 2) else 0

/-- Total event effect for one target year: sum of the contributions of the
active events, an event found by its first matching event row (events absent
from the events table contribute nothing). -/
def yearEffect (events : List DataRec) (active : List (String × ℚ)) (year : Int) : ℚ :=
  (active.map (fun ei =>
    match events.find? (fun r => r.indicator == ei.1) with
    | some ev => eventContribution ei.2 (janFirstDays year - daysFromCivil ev.date)
    | none => 0)).sum

/-- One row of the event-augmented forecast dataframe (centre columns). -/
structure AugRow where
  year : Int
  baseline : ℚ
  baseline_lower : ℚ
  baseline_upper : ℚ
  event_augmented : ℚ
deriving DecidableEq

/-- The event-augmented dataframe: its rows plus the constant half-width
`1.96 × std(event_effects)` of the `event_lower`/`event_upper` columns; the
half-width is `none` exactly when those columns were never added (the two
fallback branches). -/
structure AugDF where
  rows : List AugRow
  eventBand : Option ℚ
deriving DecidableEq

/-- `FinancialInclusionForecaster.event_augmented_forecast`: baseline plus
cumulative ramped event impacts; falls back to the bare baseline when the
indicator has no matrix column or only zero entries. -/
def eventAugmentedForecast (sqrtA : ℚ → ℚ) (data : List DataRec) (matrix : AssocCols)
    (ind : String) (forecastYears : List Int) : Except String AugDF :=
  match baselineForecast sqrtA data ind forecastYears with
  | .error e => .error e
  | .ok baseline =>
    match findColumn matrix ind with
    | none =>
      .ok ⟨baseline.map (fun b =>
        ⟨b.year, b.baseline, b.baseline_lower, b.baseline_upper, b.baseline⟩), none⟩
    | some col =>
      let active := col.filter (fun ei => decide (ei.2 ≠ 0))
      if active.isEmpty then
        .ok ⟨baseline.map (fun b =>
          ⟨b.year, b.baseline, b.baseline_lower, b.baseline_upper, b.baseline⟩), none⟩
      else
        let events := eventsOf data
        let effects := forecastYears.map (fun y => yearEffect events active y)
        let width := (49/25) * sqrtA (pvariance effects)
        .ok ⟨baseline.map (fun b =>
          ⟨b.year, b.baseline, b.baseline_lower, b.baseline_upper,
            b.baseline + yearEffect events active b.year⟩), some width⟩

/-- One row of the scenarios dataframe: the nine clipped output columns. -/
structure ScenarioRow where
  year : Int
  base : ℚ
  base_lower : ℚ
  base_upper : ℚ
  optimistic : ℚ
  optimistic_lower : ℚ
  optimistic_upper : ℚ
  pessimistic : ℚ
  pessimistic_lower : ℚ
  pessimistic_upper : ℚ
deriving DecidableEq

/-- The per-row computation of `create_scenarios`: centre `c` is the
event-augmented value, `w` the event-band half-width; optimistic multiplies by
1.2, pessimistic by 0.8 (centre and both band edges alike), then every column
is clipped to `[0, 100]`. -/
def scenarioRow (w : ℚ) (r : AugRow) : ScenarioRow :=
  let c := r.event_augmented
  { year := r.year
    base := clip100 c
    base_lower := clip100 (c - w)
    base_upper := clip100 (c + w)
    optimistic := clip100 (c * (6/5))
    optimistic_lower := clip100 ((c - w) * (6/5))
    optimistic_upper := clip100 ((c + w) * (6/5))
    pessimistic := clip100 (c * (4/5))
    pessimistic_lower := clip100 ((c - w) * (4/5))
    pessimistic_upper := clip100 ((c + w) * (4/5)) }

/-- `FinancialInclusionForecaster.create_scenarios`.  When the augmented
dataframe lacks the `event_lower` column (the fallback branches), accessing
`base_df['event_lower']` raises `KeyError`. -/
def createScenarios (sqrtA : ℚ → ℚ) (data : List DataRec) (matrix : AssocCols)
    (ind : String) (forecastYears : List Int) : Except String (List ScenarioRow) :=
  match eventAugmentedForecast sqrtA data matrix ind forecastYears with
  | .error e => .error e
  | .ok df =>
    match df.eventBand with
    | none => .error msgKeyErrorBand
    | some w => .ok (df.rows.map (scenarioRow w))

/-- Rows actually produced by `create_scenarios` (empty when it raises). -/
def scenariosRows (sqrtA : ℚ → ℚ) (data : List DataRec) (matrix : AssocCols)
    (ind : String) (forecastYears : List Int) : List ScenarioRow :=
  match createScenarios sqrtA data matrix ind forecastYears with
  | .ok l => l
  | .error _ => []

/-- Rows actually produced by `event_augmented_forecast` (empty when it
raises). -/
def augRowsOrNil (sqrtA : ℚ → ℚ) (data : List DataRec) (matrix : AssocCols)
    (ind : String) (forecastYears : List Int) : List AugRow :=
  match eventAugmentedForecast sqrtA data matrix ind forecastYears with
  | .ok df => df.rows
  | .error _ => []

/-- `FinancialInclusionForecaster.get_latest_value`: last yearly value. -/
def getLatestValue (data : List DataRec) (ind : String) : Except String ℚ :=
  match prepareHistoricalData data ind with
  | .error e => .error e
  | .ok h =>
    match h.getLast? with
    | some p => .ok p.2
    | none => .ok 0

/-- The fixed indicator/pillar list of `forecast_all_indicators`. -/
def keyIndicators : List (String × String) :=
  [("Account Ownership Rate", "Access"), ("USG_DIGITAL_PAYMENT", "Usage")]

/-- Per-indicator entry of the batch forecast. -/
structure ForecastEntry where
  pillar : String
  scenarios : List ScenarioRow
  latest : ℚ
deriving DecidableEq

/-- The body of the per-indicator `try` block of `forecast_all_indicators`:
any exception yields `none` for that indicator only. -/
def indicatorEntry (sqrtA : ℚ → ℚ) (data : List DataRec) (matrix : AssocCols)
    (ind pillar : String) : Option ForecastEntry :=
  match createScenarios sqrtA data matrix ind [2025, 2026, 2027] with
  | .error _ => none
  | .ok s =>
    match getLatestValue data ind with
    | .error _ => none
    | .ok lv => some ⟨pillar, s, lv⟩

/-- `FinancialInclusionForecaster.forecast_all_indicators`: one entry per key
indicator, failures recorded as `none` without aborting the batch. -/
def forecastAllIndicators (sqrtA : ℚ → ℚ) (data : List DataRec) (matrix : AssocCols) :
    List (String × Option ForecastEntry) :=
  keyIndicators.map (fun ip => (ip.1, indicatorEntry sqrtA data matrix ip.1 ip.2))

/-- Number of distinct observation years backing one indicator. -/
def distinctYearCount (data : List DataRec) (ind : String) : Nat :=
  (uniqueYears (observationsFor data ind)).length

/-- One row of the validation results table of
`EventImpactModeler.validate_historical_impacts`. -/
structure VRow where
  event : String
  indicator : String
  actual_change : ℚ
  predicted_impact : ℚ
  error : ℚ
  error_pct : Option ℚ
  validation : String
deriving DecidableEq

/-- The fixed major events back-validated against history. -/
def keyEvents : List String := ["Telebirr Launch", "M-Pesa Ethiopia Launch"]

/-- The fixed indicators used in the back-validation loop. -/
def valIndicators : List String := ["Account Ownership Rate", "Mobile Money Account Rate"]

/-- `EventImpactModeler._calculate_actual_change`: mean of the first available
post-event year minus mean of the last available pre-event year; `none` when
fewer than two observation rows exist or a pre- or post-event year is missing.
`iloc[0]` on a missing event raises. -/
def calculateActualChange (events obs : List DataRec) (ev ind : String) :
    Except String (Option ℚ) :=
  match events.find? (fun r => r.indicator == ev) with
  | none => .error msgIndexError
  | some evRow =>
    let eyear := evRow.date.y
    let indData := obs.filter (fun r => r.indicator == ind)
    if indData.length < 2 then .ok none
    else
      let years := (indData.map (fun r => r.date.y)).dedup
      let preYears := years.filter (fun y => decide (y < eyear))
      let postYears := years.filter (fun y => decide (eyear < y))
      match preYears.max?, postYears.min? with
      | some py, some qy =>
        let preV := listMean ((indData.filter (fun r => r.date.y == py)).map
          (fun r => r.value_numeric))
        let postV := listMean ((indData.filter (fun r => r.date.y == qy)).map
          (fun r => r.value_numeric))
        .ok (some (postV - preV))
      | _, _ => .ok none

/-- Matrix cell lookup `self.association_matrix.loc[event, indicator]`;
raises when the row or the column is absent. -/
def matrixLookup (m : AssocCols) (ev ind : String) : Except String ℚ :=
  match findColumn m ind with
  | none => .error msgKeyErrorLoc
  | some col =>
    match col.find? (fun p => p.1 == ev) with
    | none => .error msgKeyErrorLoc
    | some p => .ok p.2

/-- The loop body of `validate_historical_impacts` over the (event, indicator)
pairs: skipped when the actual change is unavailable; the error percentage is
`none` when the actual change is zero; the classification reproduces the
Python truthiness test `error_pct and error_pct < 50`, under which an
`error_pct` of exactly 0 (and a `None` one) is classified FAIL. -/
def validatePairs (events obs : List DataRec) (m : AssocCols) :
    List (String × String) → Except String (List VRow)
  | [] => .ok []
  | (ev, ind) :: rest =>
    match calculateActualChange events obs ev ind with
    | .error e => .error e
    | .ok ac =>
      match matrixLookup m ev ind with
      | .error e => .error e
      | .ok predicted =>
        match validatePairs events obs m rest with
        | .error e => .error e
        | .ok tail =>
          match ac with
          | none => .ok tail
          | some a =>
            let err := |predicted - a|
            let ep : Option ℚ := if a ≠ 0 then some (err / |a| * 100) else none
            let v : String :=
              match ep with
              | some p => if p ≠ 0 ∧ p < 50 then "PASS" else "FAIL"
              | none => "FAIL"
            .ok (⟨ev, ind, a, predicted, err, ep, v⟩ :: tail)

/-- `EventImpactModeler.validate_historical_impacts`. -/
def validateHistoricalImpacts (data : List DataRec) (m : AssocCols) :
    Except String (List VRow) :=
  validatePairs (eventsOf data) (data.filter (fun r => r.record_type == "observation")) m
    (keyEvents.flatMap (fun e => valIndicators.map (fun i => (e, i))))

/-- Validation rows actually produced (empty when the validation raises). -/
def validateRowsOrNil (data : List DataRec) (m : AssocCols) : List VRow :=
  match validateHistoricalImpacts data m with
  | .ok l => l
  | .error _ => []

/-- `AssociationMatrixBuilder._calculate_impact_value`: the impact estimate
signed by direction when present, otherwise the fixed magnitude lookup
(high 15, medium 8, low 3, default 5) signed by direction. -/
def calculateImpactValue (direction magnitude : String) (estimate : Option ℚ) : ℚ :=
  match estimate with
  | some e => if direction == "increase" then e else -e
  | none =>
    let base : ℚ :=
      if magnitude == "high" then 15
      else if magnitude == "medium" then 8
      else if magnitude == "low" then 3
      else 5
    if direction == "increase" then base else -base

/-- `EventImpactModeler._quantify_impact`: same computation as
`_calculate_impact_value`, duplicated in the event modeler. -/
def quantifyImpact (direction magnitude : String) (estimate : Option ℚ) : ℚ :=
  match estimate with
  | some e => if direction == "increase" then e else -e
  | none =>
    let base : ℚ :=
      if magnitude == "high" then 15
      else if magnitude == "medium" then 8
      else if magnitude == "low" then 3
      else 5
    if direction == "increase" then base else -base

/-- One row of the forecast series consumed by `get_milestones`. -/
structure MRow where
  year : ℚ
  value : ℚ
deriving DecidableEq

/-- Floor of a rational, computed as Euclidean division of the numerator by
the (positive) denominator. -/
def ratFloor (q : ℚ) : Int := Int.ediv q.num (q.den : Int)

/-- Round half to even on rationals (Python `round` on an exact value). -/
def rheInt (q : ℚ) : Int :=
  let f := ratFloor q
  if q - (f : ℚ) < 1/2 then f
  else if 1/2 < q - (f : ℚ) then f + 1
  else if f % 2 = 0 then f else f + 1

/-- Python `round(x, 1)`: one decimal place, half to even. -/
def round1 (q : ℚ) : ℚ := ((rheInt (q * 10) : Int) : ℚ) / 10

/-- The inner scan of `get_milestones`: first consecutive pair bracketing the
target, returning the interpolated crossing year rounded to one decimal. -/
def scanPairs (t : ℚ) : List MRow → Option ℚ
  | a :: b :: rest =>
    if a.value ≤ t ∧ t ≤ b.value then
      some (round1 (a.year + (t - a.value) / (b.value - a.value) * (b.year - a.year)))
    else scanPairs t (b :: rest)
  | _ => none

/-- The default milestone list of `get_milestones`. -/
def defaultMilestones : List ℚ := [50, 60, 70, 80, 90]

/-- `ForecastProcessor.get_milestones`: `none` when the series is missing or
has fewer than two rows, otherwise one entry per milestone found. -/
def getMilestones (fd : Option (List MRow)) (ms : List ℚ) :
    Option (List (ℚ × ℚ)) :=
  match fd with
  | none => none
  | some rows =>
    if rows.length < 2 then none
    else some (ms.filterMap (fun t => (scanPairs t rows).map (fun z => (t, z))))

/-- Lookup of a milestone's entry in the returned mapping. -/
def lookupMilestone (l : List (ℚ × ℚ)) (t : ℚ) : Option ℚ :=
  (l.find? (fun p => p.1 == t)).map (fun p => p.2)

/-- The result record of `ForecastProcessor.analyze_nfis_target_gap`. -/
structure GapResult where
  current_value : ℚ
  forecast_2025 : ℚ
  target_2025 : ℚ
  gap : ℚ
  achievement_pct : ℚ
  status : String
deriving DecidableEq

/-- `ForecastProcessor.analyze_nfis_target_gap` (default target 70). -/
def analyzeNfisTargetGap (current forecast : Option ℚ) (target : ℚ) :
    Option GapResult :=
  match current, forecast with
  | some c, some f =>
    let gap := target - f
    some ⟨c, f, target, gap, f / target * 100,
      if gap ≤ 0 then "On Track" else "Off Track"⟩
  | _, _ => none

/-- Definition following the specification's words for the milestone search:
the first consecutive pair of forecast rows whose values bracket the target
(`value[i] ≤ target ≤ value[i+1]`), used to state the refinement theorem for
`get_milestones`. -/
def specMilestoneBracket (t : ℚ) : List MRow → Option (MRow × MRow)
  | a :: b :: rest =>
    if a.value ≤ t ∧ t ≤ b.value then some (a, b)
    else specMilestoneBracket t (b :: rest)
  | _ => none

lemma clip100_nonneg (x : ℚ) : 0 ≤ clip100 x := le_max_left 0 _

lemma clip100_le_hundred (x : ℚ) : clip100 x ≤ 100 :=
  max_le (by norm_num) (min_le_right x 100)

lemma clip100_eq_self {x : ℚ} (h0 : 0 ≤ x) (h1 : x ≤ 100) : clip100 x = x := by
  unfold clip100
  rw [min_eq_left h1, max_eq_right h0]

/-- C5: in `create_scenarios`, the pre-clip optimistic value is the
event-augmented centre times 1.2 and the pre-clip pessimistic value the centre
times 0.8, with the same multipliers applied to both band edges; for a centre
in `[0, 83.33]` the clip is the identity, so the clipped optimistic and
pessimistic outputs equal centre × 1.2 and centre × 0.8 exactly. -/
theorem scenarioRow_scaling (w : ℚ) (a : AugRow)
    (h0 : 0 ≤ a.event_augmented) (h1 : a.event_augmented ≤ 8333/100) :
    (scenarioRow w a).optimistic = a.event_augmented * (6/5) ∧
    (scenarioRow w a).pessimistic = a.event_augmented * (4/5) ∧
    (scenarioRow w a).base = a.event_augmented ∧
    (scenarioRow w a).optimistic_lower = clip100 ((a.event_augmented - w) * (6/5)) ∧
    (scenarioRow w a).optimistic_upper = clip100 ((a.event_augmented + w) * (6/5)) ∧
    (scenarioRow w a).pessimistic_lower = clip100 ((a.event_augmented - w) * (4/5)) ∧
    (scenarioRow w a).pessimistic_upper = clip100 ((a.event_augmented + w) * (4/5)) := by
  refine ⟨?_, ?_, ?_, rfl, rfl, rfl, rfl⟩
  · exact clip100_eq_self (by nlinarith) (by nlinarith)
  · exact clip100_eq_self (by nlinarith) (by nlinarith)
  · exact clip100_eq_self h0 (by linarith)

/-- Witness for C5 at centre 50, half-width 1. -/
theorem scenarioRow_scaling_witness :
    (scenarioRow 1 ⟨2025, 0, 0, 0, 50⟩).optimistic = 60 ∧
    (scenarioRow 1 ⟨2025, 0, 0, 0, 50⟩).pessimistic = 40 := by
  have h := scenarioRow_scaling 1 ⟨2025, 0, 0, 0, 50⟩ (by norm_num) (by norm_num)
  exact ⟨h.1.trans (by norm_num), h.2.1.trans (by norm_num)⟩

/-- C4: the per-event contribution inside `event_augmented_forecast` is 0 for
events not strictly in the past, equals `impact * min(1, years_since/2)` for
strictly past events, is exactly 0 at `years_since = 0`, and is exactly the
full matrix impact for `years_since ≥ 2`. -/
theorem eventContribution_ramp (impact : ℚ) (ddays : Int) :
    (ddays ≤ 0 → eventContribution impact ddays = 0) ∧
    (0 < ddays →
      eventContribution impact ddays = impact * min 1 (((ddays : ℚ) / (1461/4)) / 2)) ∧
    ((ddays : ℚ) / (1461/4) = 0 → eventContribution impact ddays = 0) ∧
    (2 ≤ (ddays : ℚ) / (1461/4) → eventContribution impact ddays = impact) := by
  have hc : (0:ℚ) < 1461/4 := by norm_num
  refine ⟨?_, ?_, ?_, ?_⟩
  · intro h
    have hd : (ddays : ℚ) ≤ 0 := by exact_mod_cast h
    have hys : (ddays : ℚ) / (1461/4) ≤ 0 := div_nonpos_of_nonpos_of_nonneg hd hc.le
    simp [eventContribution, not_lt.mpr hys]
  · intro h
    have hd : (0:ℚ) < (ddays : ℚ) := by exact_mod_cast h
    have hys : 0 < (ddays : ℚ) / (1461/4) := div_pos hd hc
    simp [eventContribution, hys]
  · intro h
    simp [eventContribution, h]
  · intro h
    have hys : 0 < (ddays : ℚ) / (1461/4) := lt_of_lt_of_le (by norm_num) h
    have hmin : min 1 (((ddays : ℚ) / (1461/4)) / 2) = 1 :=
      min_eq_left (by linarith)
    simp [eventContribution, hys, hmin]

/-- Witness for C4: zero days gives 0, 800 days (years_since ≈ 2.19) gives the
full impact, 400 days gives the ramped fraction. -/
theorem eventContribution_ramp_witness :
    eventContribution 5 0 = 0 ∧ eventContribution 5 800 = 5 ∧
    eventContribution 5 400 = 5 * min 1 (((400 : ℚ) / (1461/4)) / 2) :=
  ⟨(eventContribution_ramp 5 0).1 le_rfl,
   (eventContribution_ramp 5 800).2.2.2 (by norm_num),
   (eventContribution_ramp 5 400).2.1 (by norm_num)⟩

/-- C7: `analyze_nfis_target_gap` returns `gap = target − forecast`,
`achievement_pct = forecast/target × 100`, status On Track exactly when the
gap is ≤ 0 and Off Track otherwise; on the spec's instance (current 49,
forecast 74.3, target 70) it returns gap −4.3, On Track, achievement 743/7
(≈ 106.1). -/
theorem analyzeNfisTargetGap_correct (c f t : ℚ) :
    (∀ r, analyzeNfisTargetGap (some c) (some f) t = some r →
      r.gap = t - f ∧ r.achievement_pct = f / t * 100 ∧
      (r.status = "On Track" ↔ t - f ≤ 0) ∧
      (r.status = "Off Track" ↔ ¬ t - f ≤ 0)) ∧
    (∃ r, analyzeNfisTargetGap (some 49) (some (743/10)) 70 = some r ∧
      r.gap = -(43/10) ∧ r.status = "On Track" ∧ r.achievement_pct = 743/7 ∧
      |r.achievement_pct - 1061/10| < 1/10) := by
  constructor
  · intro r hr
    simp only [analyzeNfisTargetGap, Option.some.injEq] at hr
    subst hr
    refine ⟨rfl, rfl, ?_, ?_⟩
    · by_cases h : t - f ≤ 0 <;> simp [h]
    · by_cases h : t - f ≤ 0 <;> simp [h]
  · refine ⟨⟨49, 743/10, 70, -(43/10), 743/7, "On Track"⟩, ?_, rfl, rfl, rfl, ?_⟩
    swap
    · show |(743:ℚ)/7 - 1061/10| < 1/10
      rw [show (743:ℚ)/7 - 1061/10 = 3/70 by norm_num, abs_of_nonneg (by norm_num)]
      norm_num
    simp only [analyzeNfisTargetGap, Option.some.injEq]
    norm_num

/-- Witness for C7 at the spec's instance. -/
theorem analyzeNfisTargetGap_witness :
    (⟨49, 743/10, 70, -(43/10), 743/7, "On Track"⟩ : GapResult).gap = 70 - 743/10 ∧
    (⟨49, 743/10, 70, -(43/10), 743/7, "On Track"⟩ : GapResult).achievement_pct
      = (743/10) / 70 * 100 := by
  have h := (analyzeNfisTargetGap_correct 49 (743/10) 70).1
    ⟨49, 743/10, 70, -(43/10), 743/7, "On Track"⟩
    (by simp only [analyzeNfisTargetGap, Option.some.injEq]; norm_num)
  exact ⟨h.1, h.2.1⟩

/-- C10: `get_milestones` returns `None` exactly when the forecast series is
`None` or has fewer than two rows. -/
theorem getMilestones_none_iff (fd : Option (List MRow)) (ms : List ℚ) :
    getMilestones fd ms = none ↔ fd = none ∨ ∃ l, fd = some l ∧ l.length < 2 := by
  cases fd with
  | none => simp [getMilestones]
  | some l =>
    by_cases h : l.length < 2
    · simp [getMilestones, h]
    · simp [getMilestones, h]

/-- Witness for C10: a one-row series yields `None`. -/
theorem getMilestones_none_witness :
    getMilestones (some [⟨2025, 70⟩]) defaultMilestones = none :=
  (getMilestones_none_iff (some [⟨2025, 70⟩]) defaultMilestones).mpr
    (Or.inr ⟨[⟨2025, 70⟩], rfl, by decide⟩)

/-- C9 counterexample: a link with a negative `impact_estimate` of −5 and
direction increase is written as −5, not as the magnitude 5 demanded by the
claim; the modeler's copy agrees. -/
theorem impactValue_negative_estimate_cex :
    calculateImpactValue "increase" "high" (some (-5)) = -5 ∧
    quantifyImpact "increase" "high" (some (-5)) = -5 ∧
    ((-5 : ℚ) ≠ |(-5 : ℚ)|) := by
  refine ⟨by decide, by decide, by norm_num⟩

/-- C9 (amended): both impact-value computations agree; when an estimate is
present the cell is the estimate itself signed by direction (so it equals the
magnitude signed by direction exactly when the estimate is nonnegative); when
absent, the fixed lookup (high 15, medium 8, low 3, default 5) signed by
direction. -/
theorem impactValue_characterization (direction magnitude : String) (estimate : Option ℚ) :
    calculateImpactValue direction magnitude estimate
      = quantifyImpact direction magnitude estimate ∧
    (∀ e, estimate = some e →
      calculateImpactValue direction magnitude estimate
        = (if direction = "increase" then e else -e)) ∧
    (∀ e, estimate = some e → 0 ≤ e →
      (direction = "increase" →
        calculateImpactValue direction magnitude estimate = |e|) ∧
      (direction = "decrease" →
        calculateImpactValue direction magnitude estimate = -|e|)) ∧
    (estimate = none →
      calculateImpactValue direction magnitude estimate =
        (if direction = "increase"
          then (if magnitude = "high" then (15:ℚ) else if magnitude = "medium" then 8
            else if magnitude = "low" then 3 else 5)
          else -(if magnitude = "high" then (15:ℚ) else if magnitude = "medium" then 8
            else if magnitude = "low" then 3 else 5))) := by
  refine ⟨rfl, ?_, ?_, ?_⟩
  · rintro e rfl
    simp only [calculateImpactValue]
    by_cases hd : direction = "increase" <;> simp [hd]
  · rintro e rfl he
    rw [abs_of_nonneg he]
    constructor
    · rintro rfl
      simp [calculateImpactValue]
    · rintro rfl
      simp [calculateImpactValue]
  · rintro rfl
    simp only [calculateImpactValue]
    by_cases hd : direction = "increase" <;>
      by_cases hh : magnitude = "high" <;>
      by_cases hm : magnitude = "medium" <;>
      by_cases hl : magnitude = "low" <;>
      simp [hd, hh, hm, hl]

/-- Witness for C9 at a lookup case and a present-estimate case. -/
theorem impactValue_characterization_witness :
    calculateImpactValue "decrease" "medium" none = -8 ∧
    calculateImpactValue "increase" "unrecognized" (some 7) = 7 := by
  have h1 := (impactValue_characterization "decrease" "medium" none).2.2.2 rfl
  have h2 := (impactValue_characterization "increase" "unrecognized" (some 7)).2.1 7 rfl
  constructor
  · rw [h1]; decide
  · rw [h2]; decide

lemma scanPairs_eq_bracket (t : ℚ) (rows : List MRow) :
    scanPairs t rows = (specMilestoneBracket t rows).map
      (fun ab => round1 (ab.1.year + (t - ab.1.value) / (ab.2.value - ab.1.value)
        * (ab.2.year - ab.1.year))) := by
  induction rows with
  | nil => simp [scanPairs, specMilestoneBracket]
  | cons a rest ih =>
    cases rest with
    | nil => simp [scanPairs, specMilestoneBracket]
    | cons b rest2 =>
      by_cases h : a.value ≤ t ∧ t ≤ b.value
      · simp [scanPairs, specMilestoneBracket, h]
      · simp only [scanPairs, specMilestoneBracket, if_neg h]
        exact ih

lemma lookupMilestone_filterMap_none (rows : List MRow) (t : ℚ)
    (h : scanPairs t rows = none) (ms : List ℚ) :
    lookupMilestone (ms.filterMap (fun m => (scanPairs m rows).map (fun z => (m, z)))) t
      = none := by
  induction ms with
  | nil => simp [lookupMilestone]
  | cons m rest ih =>
    by_cases hm : m = t
    · subst hm
      rw [List.filterMap_cons_none (by rw [h]; rfl)]
      exact ih
    · cases hz : scanPairs m rows with
      | none =>
        rw [List.filterMap_cons_none (by rw [hz]; rfl)]
        exact ih
      | some z =>
        rw [List.filterMap_cons_some (by rw [hz]; rfl)]
        unfold lookupMilestone at ih ⊢
        rw [List.find?_cons_of_neg]
        · exact ih
        · simpa using hm

lemma lookupMilestone_filterMap_mem (rows : List MRow) (t : ℚ) (ms : List ℚ)
    (ht : t ∈ ms) :
    lookupMilestone (ms.filterMap (fun m => (scanPairs m rows).map (fun z => (m, z)))) t
      = scanPairs t rows := by
  induction ms with
  | nil => cases ht
  | cons m rest ih =>
    by_cases hm : m = t
    · subst hm
      cases hz : scanPairs m rows with
      | none =>
        rw [List.filterMap_cons_none (by rw [hz]; rfl)]
        exact lookupMilestone_filterMap_none rows m hz rest
      | some z =>
        rw [List.filterMap_cons_some (by rw [hz]; rfl)]
        unfold lookupMilestone
        rw [List.find?_cons_of_pos]
        · rfl
        · simp
    · have ht2 : t ∈ rest := by
        cases ht with
        | head => exact absurd rfl hm
        | tail _ h2 => exact h2
      cases hz : scanPairs m rows with
      | none =>
        rw [List.filterMap_cons_none (by rw [hz]; rfl)]
        exact ih ht2
      | some z =>
        rw [List.filterMap_cons_some (by rw [hz]; rfl)]
        unfold lookupMilestone at ih ⊢
        rw [List.find?_cons_of_neg]
        · exact ih ht2
        · simpa using hm

/-- C6 counterexample: on the series [(2025,70),(2026,73)] with target 71 the
code returns the year rounded to one decimal, 2025.3, which differs from the
exact interpolated year 2025 + 1/3 asserted by the claim. -/
theorem getMilestones_rounding_cex :
    getMilestones (some [⟨2025, 70⟩, ⟨2026, 73⟩]) [71] = some [(71, 20253/10)] ∧
    ((20253 : ℚ)/10) ≠ 2025 + (71 - 70) / (73 - 70) * (2026 - 2025) := by
  constructor
  · have hs : scanPairs 71 [⟨2025, 70⟩, ⟨2026, 73⟩] = some (20253/10) := by
      simp only [scanPairs]
      rw [if_pos (by norm_num)]
      rw [show round1 ((2025:ℚ) + (71 - 70) / (73 - 70) * (2026 - 2025)) = 20253/10 by
        norm_num [round1, rheInt, ratFloor]]
    simp only [getMilestones]
    rw [if_neg (by decide)]
    rw [List.filterMap_cons_some (by rw [hs]; rfl)]
    rfl
  · norm_num

/-- C6 (amended): for a series of at least two rows, each target in the
milestone list is mapped to the linearly interpolated crossing year rounded to
one decimal place, computed at the first consecutive pair bracketing the
target, and is omitted when no pair brackets it. -/
theorem getMilestones_interpolation (rows : List MRow) (ms : List ℚ) (t : ℚ)
    (h2 : 2 ≤ rows.length) (ht : t ∈ ms) :
    ∃ l, getMilestones (some rows) ms = some l ∧
      lookupMilestone l t = (specMilestoneBracket t rows).map
        (fun ab => round1 (ab.1.year + (t - ab.1.value) / (ab.2.value - ab.1.value)
          * (ab.2.year - ab.1.year))) := by
  have hno : ¬ rows.length < 2 := Nat.not_lt.mpr h2
  refine ⟨ms.filterMap (fun m => (scanPairs m rows).map (fun z => (m, z))), ?_, ?_⟩
  · simp [getMilestones, hno]
  · rw [lookupMilestone_filterMap_mem rows t ms ht, scanPairs_eq_bracket]

/-- Witness for C6: the spec's instance [(2025,70),(2026,80)], target 75,
yields year 2025.5. -/
theorem getMilestones_interpolation_witness :
    lookupMilestone ((getMilestones (some [⟨2025, 70⟩, ⟨2026, 80⟩]) [75]).getD []) 75
      = some (4051/2) := by
  obtain ⟨l, hl, he⟩ :=
    getMilestones_interpolation [⟨2025, 70⟩, ⟨2026, 80⟩] [75] 75 (by norm_num) (by simp)
  have hb : specMilestoneBracket 75 [⟨2025, 70⟩, ⟨2026, 80⟩]
      = some (⟨2025, 70⟩, ⟨2026, 80⟩) := by
    simp only [specMilestoneBracket]
    rw [if_pos (by norm_num)]
  rw [hb] at he
  rw [hl]
  simp only [Option.getD_some]
  rw [he]
  show some (round1 ((2025:ℚ) + (75 - 70) / (80 - 70) * (2026 - 2025))) = some (4051/2)
  exact congrArg some (by norm_num [round1, rheInt, ratFloor])

/-- C2: when the indicator has no matrix column, or its column has only zero
entries, every row produced by `event_augmented_forecast` has its
event-augmented value equal to its baseline value (band fields aside). -/
theorem eventAugmented_fallback (sqrtA : ℚ → ℚ) (data : List DataRec) (m : AssocCols)
    (ind : String) (fy : List Int)
    (h : ∀ col, findColumn m ind = some col → ∀ p ∈ col, p.2 = 0) :
    ∀ r ∈ augRowsOrNil sqrtA data m ind fy, r.event_augmented = r.baseline := by
  intro r hr
  unfold augRowsOrNil at hr
  rcases hbl : baselineForecast sqrtA data ind fy with e | baseline
  · rw [show eventAugmentedForecast sqrtA data m ind fy = .error e by
      unfold eventAugmentedForecast; rw [hbl]] at hr
    simp at hr
  · cases hc : findColumn m ind with
    | none =>
      rw [show eventAugmentedForecast sqrtA data m ind fy
          = .ok ⟨baseline.map (fun b =>
              ⟨b.year, b.baseline, b.baseline_lower, b.baseline_upper, b.baseline⟩), none⟩ by
        unfold eventAugmentedForecast; rw [hbl, hc]] at hr
      simp only [List.mem_map] at hr
      obtain ⟨b, _, rfl⟩ := hr
      rfl
    | some col =>
      have hz : ∀ p ∈ col, p.2 = 0 := h col hc
      have hfilter : col.filter (fun ei => decide (ei.2 ≠ 0)) = [] := by
        rw [List.filter_eq_nil_iff]
        intro p hp
        simpa using hz p hp
      rw [show eventAugmentedForecast sqrtA data m ind fy
          = .ok ⟨baseline.map (fun b =>
              ⟨b.year, b.baseline, b.baseline_lower, b.baseline_upper, b.baseline⟩), none⟩ by
        unfold eventAugmentedForecast; rw [hbl, hc]; simp [hfilter]
        exact fun x x1 hx => hz (x, x1) hx] at hr
      simp only [List.mem_map] at hr
      obtain ⟨b, _, rfl⟩ := hr
      rfl

def sqrtZero : ℚ → ℚ := fun _ => 0

def obsAOR (y : Int) (v : ℚ) : DataRec :=
  ⟨"observation", "Account Ownership Rate", ⟨y, 6, 15⟩, v⟩

def telebirrEvent : DataRec := ⟨"event", "Telebirr Launch", ⟨2021, 5, 11⟩, 0⟩

def dataTwoYears : List DataRec := [obsAOR 2020 40, obsAOR 2021 44, telebirrEvent]

def matrixZeroCol : AssocCols := [("Account Ownership Rate", [("Telebirr Launch", 0)])]

def defaultAugRow : AugRow := ⟨0, 0, 0, 0, 0⟩

lemma prep_dataTwoYears :
    prepareHistoricalData dataTwoYears "Account Ownership Rate"
      = .ok [(2020, 40), (2021, 44)] := by
  have hobs : observationsFor dataTwoYears "Account Ownership Rate"
      = [obsAOR 2020 40, obsAOR 2021 44] := by
    simp [observationsFor, dataTwoYears, obsAOR, telebirrEvent]
  unfold prepareHistoricalData
  rw [hobs]
  rw [if_neg (by simp [obsAOR])]
  have hyd : yearlyData [obsAOR 2020 40, obsAOR 2021 44] = [(2020, 40), (2021, 44)] := by
    unfold yearlyData uniqueYears
    norm_num [obsAOR, List.dedup, sortYears, insertYear, listMean]
  rw [hyd]

lemma base_dataTwoYears :
    baselineForecast sqrtZero dataTwoYears "Account Ownership Rate" [2025]
      = .ok [⟨2025, 60, 60, 60⟩] := by
  unfold baselineForecast
  rw [prep_dataTwoYears]
  have hfit : linfit [(2020, 40), (2021, 44)] = (4, -8040) := by
    unfold linfit
    norm_num
  norm_num [baselineFromHistorical, hfit, pvariance, listMean, sqrtZero]

lemma aug_zeroCol :
    eventAugmentedForecast sqrtZero dataTwoYears matrixZeroCol
      "Account Ownership Rate" [2025] = .ok ⟨[⟨2025, 60, 60, 60, 60⟩], none⟩ := by
  unfold eventAugmentedForecast
  rw [base_dataTwoYears]
  rw [show findColumn matrixZeroCol "Account Ownership Rate"
      = some [("Telebirr Launch", (0:ℚ))] from rfl]
  simp

/-- Witness for C2 on a concrete dataset whose matrix column is all zeros. -/
theorem eventAugmented_fallback_witness :
    ((augRowsOrNil sqrtZero dataTwoYears matrixZeroCol "Account Ownership Rate"
        [2025]).getD 0 defaultAugRow).event_augmented
      = ((augRowsOrNil sqrtZero dataTwoYears matrixZeroCol "Account Ownership Rate"
        [2025]).getD 0 defaultAugRow).baseline := by
  have hrows : augRowsOrNil sqrtZero dataTwoYears matrixZeroCol
      "Account Ownership Rate" [2025] = [⟨2025, 60, 60, 60, 60⟩] := by
    unfold augRowsOrNil
    rw [aug_zeroCol]
  apply eventAugmented_fallback sqrtZero dataTwoYears matrixZeroCol
    "Account Ownership Rate" [2025]
  · intro col hcol p hp
    have hcc : [("Telebirr Launch", (0:ℚ))] = col := by
      injection hcol
    rw [← hcc] at hp
    cases hp with
    | head => rfl
    | tail _ h2 => cases h2
  · rw [hrows]
    exact List.mem_singleton.mpr rfl

lemma mem_scenariosRows {sqrtA : ℚ → ℚ} {data : List DataRec} {m : AssocCols}
    {ind : String} {fy : List Int} {r : ScenarioRow}
    (hr : r ∈ scenariosRows sqrtA data m ind fy) : ∃ w a, r = scenarioRow w a := by
  unfold scenariosRows at hr
  rcases hcs : createScenarios sqrtA data m ind fy with e | l
  · rw [hcs] at hr
    simp at hr
  · rw [hcs] at hr
    unfold createScenarios at hcs
    rcases haf : eventAugmentedForecast sqrtA data m ind fy with e2 | df
    · rw [haf] at hcs
      cases hcs
    · rw [haf] at hcs
      obtain ⟨rows, band⟩ := df
      cases band with
      | none => cases hcs
      | some w =>
        cases hcs
        simp only [List.mem_map] at hr
        obtain ⟨a, _, rfl⟩ := hr
        exact ⟨w, a, rfl⟩

/-- C1: every row produced by `create_scenarios` has all nine output columns
(base, optimistic, pessimistic and their band edges) in the interval
`[0, 100]`. -/
theorem createScenarios_clipped (sqrtA : ℚ → ℚ) (data : List DataRec) (m : AssocCols)
    (ind : String) (fy : List Int) (r : ScenarioRow)
    (hr : r ∈ scenariosRows sqrtA data m ind fy) :
    (0 ≤ r.base ∧ r.base ≤ 100) ∧
    (0 ≤ r.base_lower ∧ r.base_lower ≤ 100) ∧
    (0 ≤ r.base_upper ∧ r.base_upper ≤ 100) ∧
    (0 ≤ r.optimistic ∧ r.optimistic ≤ 100) ∧
    (0 ≤ r.optimistic_lower ∧ r.optimistic_lower ≤ 100) ∧
    (0 ≤ r.optimistic_upper ∧ r.optimistic_upper ≤ 100) ∧
    (0 ≤ r.pessimistic ∧ r.pessimistic ≤ 100) ∧
    (0 ≤ r.pessimistic_lower ∧ r.pessimistic_lower ≤ 100) ∧
    (0 ≤ r.pessimistic_upper ∧ r.pessimistic_upper ≤ 100) := by
  obtain ⟨w, a, rfl⟩ := mem_scenariosRows hr
  exact ⟨⟨clip100_nonneg _, clip100_le_hundred _⟩, ⟨clip100_nonneg _, clip100_le_hundred _⟩,
    ⟨clip100_nonneg _, clip100_le_hundred _⟩, ⟨clip100_nonneg _, clip100_le_hundred _⟩,
    ⟨clip100_nonneg _, clip100_le_hundred _⟩, ⟨clip100_nonneg _, clip100_le_hundred _⟩,
    ⟨clip100_nonneg _, clip100_le_hundred _⟩, ⟨clip100_nonneg _, clip100_le_hundred _⟩,
    ⟨clip100_nonneg _, clip100_le_hundred _⟩⟩

def matrixActive : AssocCols := [("Account Ownership Rate", [("Telebirr Launch", 5)])]

def defaultScenarioRow : ScenarioRow := ⟨0, 0, 0, 0, 0, 0, 0, 0, 0, 0⟩

def c1SampleRow : ScenarioRow :=
  (scenariosRows sqrtZero dataTwoYears matrixActive "Account Ownership Rate"
    [2025]).getD 0 defaultScenarioRow

lemma contribution_telebirr_2025 :
    eventContribution 5 (janFirstDays 2025 - daysFromCivil telebirrEvent.date) = 5 := by
  have hd : janFirstDays 2025 - daysFromCivil telebirrEvent.date = 1331 := by
    unfold janFirstDays daysFromCivil telebirrEvent
    decide
  rw [hd]
  exact (eventContribution_ramp 5 1331).2.2.2 (by norm_num)

lemma effect_telebirr_2025 :
    yearEffect (eventsOf dataTwoYears) [("Telebirr Launch", 5)] 2025 = 5 := by
  have hev : eventsOf dataTwoYears = [telebirrEvent] := by
    simp [eventsOf, dataTwoYears, obsAOR, telebirrEvent]
  rw [hev]
  unfold yearEffect
  simp only [List.map_cons, List.map_nil, List.sum_cons, List.sum_nil]
  rw [show (List.find? (fun r => r.indicator == ("Telebirr Launch", (5:ℚ)).1)
      [telebirrEvent]) = some telebirrEvent from rfl]
  show eventContribution 5 (janFirstDays 2025 - daysFromCivil telebirrEvent.date) + 0 = 5
  rw [contribution_telebirr_2025]
  norm_num

lemma aug_active :
    eventAugmentedForecast sqrtZero dataTwoYears matrixActive
      "Account Ownership Rate" [2025] = .ok ⟨[⟨2025, 60, 60, 60, 65⟩], some 0⟩ := by
  simp only [eventAugmentedForecast, base_dataTwoYears,
    show findColumn matrixActive "Account Ownership Rate"
      = some [("Telebirr Launch", (5:ℚ))] from rfl,
    show List.filter (fun ei => decide (ei.2 ≠ 0)) [("Telebirr Launch", (5:ℚ))]
      = [("Telebirr Launch", (5:ℚ))] from rfl,
    List.isEmpty_cons, List.map_cons, List.map_nil, Bool.false_eq_true, if_false,
    effect_telebirr_2025,
    show pvariance [(5:ℚ)] = 0 by norm_num [pvariance, listMean],
    sqrtZero]
  norm_num

lemma scenarios_active :
    scenariosRows sqrtZero dataTwoYears matrixActive "Account Ownership Rate" [2025]
      = [scenarioRow 0 ⟨2025, 60, 60, 60, 65⟩] := by
  simp only [scenariosRows, createScenarios, aug_active, List.map_cons, List.map_nil]

/-- Witness for C1 on a concrete dataset with one active event. -/
theorem createScenarios_clipped_witness :
    (0 ≤ c1SampleRow.base ∧ c1SampleRow.base ≤ 100) ∧
    (0 ≤ c1SampleRow.base_lower ∧ c1SampleRow.base_lower ≤ 100) ∧
    (0 ≤ c1SampleRow.base_upper ∧ c1SampleRow.base_upper ≤ 100) ∧
    (0 ≤ c1SampleRow.optimistic ∧ c1SampleRow.optimistic ≤ 100) ∧
    (0 ≤ c1SampleRow.optimistic_lower ∧ c1SampleRow.optimistic_lower ≤ 100) ∧
    (0 ≤ c1SampleRow.optimistic_upper ∧ c1SampleRow.optimistic_upper ≤ 100) ∧
    (0 ≤ c1SampleRow.pessimistic ∧ c1SampleRow.pessimistic ≤ 100) ∧
    (0 ≤ c1SampleRow.pessimistic_lower ∧ c1SampleRow.pessimistic_lower ≤ 100) ∧
    (0 ≤ c1SampleRow.pessimistic_upper ∧ c1SampleRow.pessimistic_upper ≤ 100) :=
  createScenarios_clipped sqrtZero dataTwoYears matrixActive "Account Ownership Rate"
    [2025] c1SampleRow (by
      unfold c1SampleRow
      rw [scenarios_active]
      exact List.mem_singleton.mpr rfl)

lemma insertYear_length (y : Int) (l : List Int) :
    (insertYear y l).length = l.length + 1 := by
  induction l with
  | nil => rfl
  | cons z zs ih =>
    unfold insertYear
    by_cases h : y ≤ z
    · simp [h]
    · simp [h, ih]

lemma sortYears_length (l : List Int) : (sortYears l).length = l.length := by
  induction l with
  | nil => rfl
  | cons z zs ih =>
    unfold sortYears
    rw [insertYear_length, ih]
    rfl

lemma yearlyData_length (rs : List DataRec) :
    (yearlyData rs).length = (uniqueYears rs).length := by
  unfold yearlyData
  rw [List.length_map, sortYears_length]

lemma prepare_ok_shape (data : List DataRec) (ind : String) (hist : List (Int × ℚ))
    (hprep : prepareHistoricalData data ind = .ok hist) :
    hist = yearlyData (observationsFor data ind) := by
  unfold prepareHistoricalData at hprep
  by_cases h : (observationsFor data ind).isEmpty
  · rw [if_pos h] at hprep; cases hprep
  · rw [if_neg h] at hprep; cases hprep; rfl

lemma baselineForecast_error_iff (sqrtA : ℚ → ℚ) (data : List DataRec) (ind : String)
    (fy : List Int) :
    (∃ e, baselineForecast sqrtA data ind fy = .error e)
      ↔ distinctYearCount data ind < 2 := by
  rcases hprep : prepareHistoricalData data ind with e | hist
  · have hbl : baselineForecast sqrtA data ind fy = .error e := by
      unfold baselineForecast; rw [hprep]
    have hobs : observationsFor data ind = [] := by
      unfold prepareHistoricalData at hprep
      by_cases h : (observationsFor data ind).isEmpty
      · exact List.isEmpty_iff.mp h
      · rw [if_neg h] at hprep; cases hprep
    rw [hbl]
    constructor
    · intro _
      unfold distinctYearCount uniqueYears
      rw [hobs]
      decide
    · intro _
      exact ⟨e, rfl⟩
  · have hbl : baselineForecast sqrtA data ind fy
        = baselineFromHistorical sqrtA ind fy hist := by
      unfold baselineForecast; rw [hprep]
    have hcnt : hist.length = distinctYearCount data ind := by
      rw [prepare_ok_shape data ind hist hprep, yearlyData_length]; rfl
    rw [hbl]
    unfold baselineFromHistorical
    by_cases hlen : hist.length < 2
    · rw [if_pos hlen]
      constructor
      · intro _; rw [← hcnt]; exact hlen
      · intro _; exact ⟨_, rfl⟩
    · rw [if_neg hlen]
      constructor
      · rintro ⟨e2, he2⟩; cases he2
      · intro hc; exact absurd (hcnt ▸ hc) hlen

/-- C8: `baseline_forecast` raises exactly when the indicator's observations
aggregate to fewer than two distinct yearly points (including the no-data
case); otherwise it returns a forecast whose rows cover the requested years
and lie on a fitted straight line; and inside `forecast_all_indicators` such a
failure only turns that indicator's entry into `None`. -/
theorem baselineForecast_characterization (sqrtA : ℚ → ℚ) (data : List DataRec)
    (ind : String) (fy : List Int) :
    ((∃ e, baselineForecast sqrtA data ind fy = .error e)
      ↔ distinctYearCount data ind < 2) ∧
    (2 ≤ distinctYearCount data ind →
      ∃ rows, baselineForecast sqrtA data ind fy = .ok rows ∧
        rows.map (fun r => r.year) = fy ∧
        ∃ a b, ∀ r ∈ rows, r.baseline = a + b * (r.year : ℚ)) ∧
    (∀ m pillar, distinctYearCount data ind < 2 →
      indicatorEntry sqrtA data m ind pillar = none) := by
  refine ⟨baselineForecast_error_iff sqrtA data ind fy, ?_, ?_⟩
  · intro hcnt
    rcases hprep : prepareHistoricalData data ind with e | hist
    · exfalso
      have hlt := (baselineForecast_error_iff sqrtA data ind fy).mp
        ⟨e, by unfold baselineForecast; rw [hprep]⟩
      omega
    · have hbl : baselineForecast sqrtA data ind fy
          = baselineFromHistorical sqrtA ind fy hist := by
        unfold baselineForecast; rw [hprep]
      have hcnt2 : hist.length = distinctYearCount data ind := by
        rw [prepare_ok_shape data ind hist hprep, yearlyData_length]; rfl
      have hlen : ¬ hist.length < 2 := by omega
      rw [hbl]
      unfold baselineFromHistorical
      rw [if_neg hlen]
      refine ⟨_, rfl, ?_, (linfit hist).2, (linfit hist).1, ?_⟩
      · rw [List.map_map]
        clear hbl
        induction fy with
        | nil => rfl
        | cons y ys ih => simpa using ih
      · intro r hr
        simp only [List.mem_map] at hr
        obtain ⟨yv, _, rfl⟩ := hr
        rfl
  · intro m pillar hcnt
    obtain ⟨e, he⟩ :=
      (baselineForecast_error_iff sqrtA data ind [2025, 2026, 2027]).mpr hcnt
    unfold indicatorEntry createScenarios eventAugmentedForecast
    rw [he]

def dataOneYear : List DataRec := [obsAOR 2020 40]

/-- Witness for C8: one observation year raises, two years produce a fitted
forecast, and the failing indicator's batch entry is `None`. -/
theorem baselineForecast_characterization_witness :
    (∃ e, baselineForecast sqrtZero dataOneYear "Account Ownership Rate" [2025]
      = .error e) ∧
    (∃ rows, baselineForecast sqrtZero dataTwoYears "Account Ownership Rate" [2025]
      = .ok rows ∧ rows.map (fun r => r.year) = [2025] ∧
      ∃ a b, ∀ r ∈ rows, r.baseline = a + b * (r.year : ℚ)) ∧
    indicatorEntry sqrtZero dataOneYear [] "Account Ownership Rate" "Access" = none := by
  refine ⟨?_, ?_, ?_⟩
  · exact (baselineForecast_characterization sqrtZero dataOneYear
      "Account Ownership Rate" [2025]).1.mpr (by decide)
  · exact (baselineForecast_characterization sqrtZero dataTwoYears
      "Account Ownership Rate" [2025]).2.1 (by decide)
  · exact (baselineForecast_characterization sqrtZero dataOneYear
      "Account Ownership Rate" [2025]).2.2 [] "Access" (by decide)

lemma validatePairs_props (events obs : List DataRec) (m : AssocCols) :
    ∀ (pairs : List (String × String)) (l : List VRow),
      validatePairs events obs m pairs = .ok l →
      ∀ r ∈ l,
        r.error = |r.predicted_impact - r.actual_change| ∧
        (r.actual_change ≠ 0 → r.error_pct
          = some (|r.predicted_impact - r.actual_change| / |r.actual_change| * 100)) ∧
        (r.actual_change = 0 → r.error_pct = none) ∧
        (r.validation = "PASS" ↔ ∃ p, r.error_pct = some p ∧ ¬ p = 0 ∧ p < 50) ∧
        (r.validation = "FAIL" ↔ ¬ ∃ p, r.error_pct = some p ∧ ¬ p = 0 ∧ p < 50) := by
  intro pairs
  induction pairs with
  | nil =>
    intro l hl r hr
    cases hl
    cases hr
  | cons pr rest ih =>
    obtain ⟨ev, ind⟩ := pr
    intro l hl r hr
    unfold validatePairs at hl
    rcases hac : calculateActualChange events obs ev ind with e | ac
    · rw [hac] at hl; cases hl
    · rw [hac] at hl
      rcases hml : matrixLookup m ev ind with e | predicted
      · rw [hml] at hl; cases hl
      · rw [hml] at hl
        rcases hrest : validatePairs events obs m rest with e | tail
        · rw [hrest] at hl; cases hl
        · rw [hrest] at hl
          cases ac with
          | none =>
            cases hl
            exact ih _ hrest r hr
          | some a =>
            cases hl
            rcases List.mem_cons.mp hr with rfl | hr2
            · by_cases ha : a = 0
              · have hep : (if a ≠ 0
                    then some (|predicted - a| / |a| * 100) else none) = none := by
                  rw [if_neg (by simp [ha])]
                refine ⟨rfl, fun h => absurd ha h, fun _ => hep, ?_, ?_⟩
                · show (match (if a ≠ 0 then some (|predicted - a| / |a| * 100)
                      else none) with
                    | some p => if p ≠ 0 ∧ p < 50 then "PASS" else "FAIL"
                    | none => "FAIL") = "PASS" ↔ _
                  rw [hep]
                  show "FAIL" = "PASS" ↔ _
                  simp only [hep]
                  constructor
                  · intro h5; exact absurd h5 (by decide)
                  · rintro ⟨p, hp, _⟩; cases hp
                · show (match (if a ≠ 0 then some (|predicted - a| / |a| * 100)
                      else none) with
                    | some p => if p ≠ 0 ∧ p < 50 then "PASS" else "FAIL"
                    | none => "FAIL") = "FAIL" ↔ _
                  rw [hep]
                  show "FAIL" = "FAIL" ↔ _
                  simp only [hep]
                  constructor
                  · rintro _ ⟨p, hp, _⟩; cases hp
                  · intro _; trivial
              · have hep : (if a ≠ 0
                    then some (|predicted - a| / |a| * 100) else none)
                    = some (|predicted - a| / |a| * 100) := by
                  rw [if_pos ha]
                refine ⟨rfl, fun _ => hep, fun h => absurd h ha, ?_, ?_⟩
                · show (match (if a ≠ 0 then some (|predicted - a| / |a| * 100)
                      else none) with
                    | some p => if p ≠ 0 ∧ p < 50 then "PASS" else "FAIL"
                    | none => "FAIL") = "PASS" ↔ _
                  rw [hep]
                  show (if |predicted - a| / |a| * 100 ≠ 0 ∧ |predicted - a| / |a| * 100 < 50
                      then "PASS" else "FAIL") = "PASS" ↔ _
                  simp only [hep]
                  by_cases hq : |predicted - a| / |a| * 100 ≠ 0 ∧ |predicted - a| / |a| * 100 < 50
                  · rw [if_pos hq]
                    exact ⟨fun _ => ⟨_, rfl, hq.1, hq.2⟩, fun _ => rfl⟩
                  · rw [if_neg hq]
                    constructor
                    · intro h5; exact absurd h5 (by decide)
                    · rintro ⟨p, hp, h1, h2⟩
                      injection hp with hp2
                      exact absurd ⟨hp2 ▸ h1, hp2 ▸ h2⟩ hq
                · show (match (if a ≠ 0 then some (|predicted - a| / |a| * 100)
                      else none) with
                    | some p => if p ≠ 0 ∧ p < 50 then "PASS" else "FAIL"
                    | none => "FAIL") = "FAIL" ↔ _
                  rw [hep]
                  show (if |predicted - a| / |a| * 100 ≠ 0 ∧ |predicted - a| / |a| * 100 < 50
                      then "PASS" else "FAIL") = "FAIL" ↔ _
                  simp only [hep]
                  by_cases hq : |predicted - a| / |a| * 100 ≠ 0 ∧ |predicted - a| / |a| * 100 < 50
                  · rw [if_pos hq]
                    constructor
                    · intro h5; exact absurd h5 (by decide)
                    · intro hno; exact (hno ⟨_, rfl, hq.1, hq.2⟩).elim
                  · rw [if_neg hq]
                    constructor
                    · rintro _ ⟨p, hp, h1, h2⟩
                      injection hp with hp2
                      exact absurd ⟨hp2 ▸ h1, hp2 ▸ h2⟩ hq
                    · intro _; trivial
            · exact ih _ hrest r hr2

/-- C3 (amended): every row produced by `validate_historical_impacts` has
`error = |predicted − actual|`; `error_pct` is `|predicted − actual|/|actual| × 100`
when the actual change is nonzero and `None` when it is zero; and the row is
classified PASS exactly when `error_pct` is defined, nonzero, and below 50 —
an `error_pct` of exactly 0 (a perfect prediction) or an undefined one is
classified FAIL, reproducing the Python truthiness test of the source. -/
theorem validateHistoricalImpacts_classification (data : List DataRec) (m : AssocCols) :
    ∀ r ∈ validateRowsOrNil data m,
      r.error = |r.predicted_impact - r.actual_change| ∧
      (r.actual_change ≠ 0 → r.error_pct
        = some (|r.predicted_impact - r.actual_change| / |r.actual_change| * 100)) ∧
      (r.actual_change = 0 → r.error_pct = none) ∧
      (r.validation = "PASS" ↔ ∃ p, r.error_pct = some p ∧ ¬ p = 0 ∧ p < 50) ∧
      (r.validation = "FAIL" ↔ ¬ ∃ p, r.error_pct = some p ∧ ¬ p = 0 ∧ p < 50) := by
  intro r hr
  unfold validateRowsOrNil at hr
  rcases hv : validateHistoricalImpacts data m with e | l
  · rw [hv] at hr
    simp at hr
  · rw [hv] at hr
    unfold validateHistoricalImpacts at hv
    exact validatePairs_props _ _ _ _ l hv r hr

def mpesaEvent : DataRec := ⟨"event", "M-Pesa Ethiopia Launch", ⟨2023, 8, 16⟩, 0⟩

def dataPerfect : List DataRec :=
  [obsAOR 2020 30, obsAOR 2022 45, telebirrEvent, mpesaEvent]

def matrixVal : AssocCols :=
  [("Account Ownership Rate",
      [("Telebirr Launch", 15), ("M-Pesa Ethiopia Launch", 15)]),
   ("Mobile Money Account Rate",
      [("Telebirr Launch", 0), ("M-Pesa Ethiopia Launch", 0)])]

lemma valrows_perfect :
    validateRowsOrNil dataPerfect matrixVal
      = [⟨"Telebirr Launch", "Account Ownership Rate", 15, 15, 0, some 0, "FAIL"⟩] := by
  have hT_AOR : calculateActualChange (eventsOf dataPerfect)
      (dataPerfect.filter (fun r => r.record_type == "observation"))
      "Telebirr Launch" "Account Ownership Rate" = .ok (some 15) := by
    with_unfolding_all rfl
  have hT_MM : calculateActualChange (eventsOf dataPerfect)
      (dataPerfect.filter (fun r => r.record_type == "observation"))
      "Telebirr Launch" "Mobile Money Account Rate" = .ok none := by
    with_unfolding_all rfl
  have hM_AOR : calculateActualChange (eventsOf dataPerfect)
      (dataPerfect.filter (fun r => r.record_type == "observation"))
      "M-Pesa Ethiopia Launch" "Account Ownership Rate" = .ok none := by
    with_unfolding_all rfl
  have hM_MM : calculateActualChange (eventsOf dataPerfect)
      (dataPerfect.filter (fun r => r.record_type == "observation"))
      "M-Pesa Ethiopia Launch" "Mobile Money Account Rate" = .ok none := by
    with_unfolding_all rfl
  norm_num [validateRowsOrNil, validateHistoricalImpacts, validatePairs,
    keyEvents, valIndicators, hT_AOR, hT_MM, hM_AOR, hM_MM,
    show matrixLookup matrixVal "Telebirr Launch" "Account Ownership Rate"
      = .ok 15 from rfl,
    show matrixLookup matrixVal "Telebirr Launch" "Mobile Money Account Rate"
      = .ok 0 from rfl,
    show matrixLookup matrixVal "M-Pesa Ethiopia Launch" "Account Ownership Rate"
      = .ok 15 from rfl,
    show matrixLookup matrixVal "M-Pesa Ethiopia Launch" "Mobile Money Account Rate"
      = .ok 0 from rfl]

/-- C3 counterexample: a pair with a perfect prediction — predicted 15, actual
15, so error_pct = 0 < 50 — is classified FAIL by the code (Python truthiness
treats the float 0.0 as falsy), contradicting "PASS exactly when
error_pct < 50". -/
theorem validate_perfect_prediction_cex :
    validateRowsOrNil dataPerfect matrixVal
      = [⟨"Telebirr Launch", "Account Ownership Rate", 15, 15, 0, some 0, "FAIL"⟩] ∧
    ((0:ℚ) < 50) :=
  ⟨valrows_perfect, by norm_num⟩

def dataRamp : List DataRec :=
  [obsAOR 2020 30, obsAOR 2022 41, obsAOR 2024 46, telebirrEvent, mpesaEvent]

def vDflt : VRow := ⟨"", "", 0, 0, 0, none, ""⟩

lemma valrows_ramp :
    validateRowsOrNil dataRamp matrixVal
      = [⟨"Telebirr Launch", "Account Ownership Rate", 11, 15, 4, some (400/11), "PASS"⟩,
         ⟨"M-Pesa Ethiopia Launch", "Account Ownership Rate", 5, 15, 10, some 200, "FAIL"⟩] := by
  have hT_AOR : calculateActualChange (eventsOf dataRamp)
      (dataRamp.filter (fun r => r.record_type == "observation"))
      "Telebirr Launch" "Account Ownership Rate" = .ok (some 11) := by
    with_unfolding_all rfl
  have hT_MM : calculateActualChange (eventsOf dataRamp)
      (dataRamp.filter (fun r => r.record_type == "observation"))
      "Telebirr Launch" "Mobile Money Account Rate" = .ok none := by
    with_unfolding_all rfl
  have hM_AOR : calculateActualChange (eventsOf dataRamp)
      (dataRamp.filter (fun r => r.record_type == "observation"))
      "M-Pesa Ethiopia Launch" "Account Ownership Rate" = .ok (some 5) := by
    with_unfolding_all rfl
  have hM_MM : calculateActualChange (eventsOf dataRamp)
      (dataRamp.filter (fun r => r.record_type == "observation"))
      "M-Pesa Ethiopia Launch" "Mobile Money Account Rate" = .ok none := by
    with_unfolding_all rfl
  norm_num [validateRowsOrNil, validateHistoricalImpacts, validatePairs,
    keyEvents, valIndicators, hT_AOR, hT_MM, hM_AOR, hM_MM,
    show matrixLookup matrixVal "Telebirr Launch" "Account Ownership Rate"
      = .ok 15 from rfl,
    show matrixLookup matrixVal "Telebirr Launch" "Mobile Money Account Rate"
      = .ok 0 from rfl,
    show matrixLookup matrixVal "M-Pesa Ethiopia Launch" "Account Ownership Rate"
      = .ok 15 from rfl,
    show matrixLookup matrixVal "M-Pesa Ethiopia Launch" "Mobile Money Account Rate"
      = .ok 0 from rfl]

/-- Witness for C3: the spec's two instances — error_pct 400/11 ≈ 36.4 is
PASS and error_pct 200 is FAIL — realised on a concrete dataset. -/
theorem validateHistoricalImpacts_classification_witness :
    ((validateRowsOrNil dataRamp matrixVal).getD 0 vDflt).validation = "PASS" ∧
    ((validateRowsOrNil dataRamp matrixVal).getD 0 vDflt).error_pct = some (400/11) ∧
    ((validateRowsOrNil dataRamp matrixVal).getD 1 vDflt).validation = "FAIL" ∧
    ((validateRowsOrNil dataRamp matrixVal).getD 1 vDflt).error_pct = some 200 := by
  have h0 := validateHistoricalImpacts_classification dataRamp matrixVal
    ((validateRowsOrNil dataRamp matrixVal).getD 0 vDflt)
    (by rw [valrows_ramp]; exact List.mem_cons_self _ _)
  refine ⟨?_, ?_, ?_, ?_⟩
  · refine (h0.2.2.2.1).mpr ⟨400/11, ?_, by norm_num, by norm_num⟩
    rw [valrows_ramp]
    rfl
  · rw [valrows_ramp]
    rfl
  · rw [valrows_ramp]
    rfl
  · rw [valrows_ramp]
    rfl
